import Mathlib

/-!
A shallow embedding of the `messagebus` TypeScript module (`src/index.ts`) and
proofs of the specification claims about it.

Modelling conventions:
* Message payloads are opaque in the source (`payload: object`); they are
  modelled as `Nat`.  Timestamps (`new Date()`) are modelled as a `Nat` supplied
  by the caller of `sendMessage`.
* Callbacks are side-effecting functions in the source.  They are modelled as
  opaque handles (`Nat`); every invocation `subscription.callback(message)` (or
  `callback(message)` during backlog replay) is recorded as an `Event` carrying
  the subscription id the invocation ran for, the callback handle, and the
  message.  Operations return the list of events in invocation order.
* JavaScript truthiness is modelled explicitly where the source relies on it:
  `options && options.startActive ? options.startActive : true`,
  `maybeExisting.lastMessageId && ...` (both `null` and `0` are falsy), and
  `maxLogSize || -1` (`0` is falsy).
* `Array.prototype.findIndex` returning `-1` and the index-based
  `filter((_, idx) => idx > j)` are modelled over `Int` indices.
-/

/-- A message on a topic (source type `Message`). -/
structure Message where
  id : Nat
  payload : Nat
  timestamp : Nat
deriving DecidableEq

/-- A subscription record (source type `Subscription`). -/
structure Subscription where
  id : Nat
  topic : String
  lastMessageId : Option Nat
  callback : Nat
  active : Bool
deriving DecidableEq

/-- A topic (source type `Topic`). -/
structure Topic where
  name : String
  messages : List Message
  subscriptions : List Subscription
  maxLogSize : Int
  nextSubId : Nat
  nextMessageID : Nat
deriving DecidableEq

/-- The bus (source type `Bus`). -/
structure Bus where
  topics : List Topic
deriving DecidableEq

/-- Source enum `BacklogStrategy`. -/
inductive BacklogStrategy where
  | IGNORE
  | LATEST
  | FULL
deriving DecidableEq

/-- Source type `SubsciptionOptions` (the typo is the source's). -/
structure SubsciptionOptions where
  id : Option Nat
  backlogStrategy : Option BacklogStrategy
  startActive : Option Bool
deriving DecidableEq

/-- One recorded callback invocation: the id of the subscription it was made
for, the callback handle that was called, and the message it received. -/
structure Event where
  subId : Nat
  callback : Nat
  message : Message
deriving DecidableEq

/-- JavaScript truthiness of a `number | null` value: `null` and `0` are falsy. -/
def jsTruthyOptNat : Option Nat → Bool
  | none => false
  | some n => n != 0

/-- Mirrors `options && options.backlogStrategy ? options.backlogStrategy :
BacklogStrategy.FULL` from the source.  The enum values are non-empty strings,
hence truthy, so only absence falls back to the default. -/
def resolveBacklogStrategy (options : Option SubsciptionOptions) : BacklogStrategy :=
  match options with
  | none => BacklogStrategy.FULL
  | some o =>
    match o.backlogStrategy with
    | none => BacklogStrategy.FULL
    | some s => s

/-- Mirrors `options && options.startActive ? options.startActive : true` from
the source.  In JavaScript the condition is falsy when `options` is undefined,
when `startActive` is undefined, and also when it is `false`; in all those
cases the default `true` is taken, so the resolved value is `true` in every
case.  The branch structure of the source expression is kept visible. -/
def resolveStartActive (options : Option SubsciptionOptions) : Bool :=
  match options with
  | none => true
  | some o =>
    match o.startActive with
    | none => true
    | some b => if b then b else true

/-- Mirrors `options && typeof options.id !== 'undefined' ? options.id :
topic.nextSubId` from the source (a `typeof` check, not truthiness, so an
explicit id of `0` is respected). -/
def resolveId (options : Option SubsciptionOptions) (topic : Topic) : Nat :=
  match options with
  | none => topic.nextSubId
  | some o =>
    match o.id with
    | none => topic.nextSubId
    | some i => i

/-- Mirrors `Array.prototype.findIndex`: the index of the first element
satisfying `p`, or `-1` if there is none. -/
def findIndexJs (p : Message → Bool) : List Message → Int
  | [] => -1
  | m :: rest =>
    if p m then 0
    else
      let r := findIndexJs p rest
      if r = -1 then -1 else r + 1

/-- Mirrors `messages.filter((_, idx) => idx > j)`: keep the elements whose
index (counted from `start`) exceeds `j`. -/
def filterIdxFrom (j : Int) : Nat → List Message → List Message
  | _, [] => []
  | i, m :: rest =>
    if (i : Int) > j then m :: filterIdxFrom j (i + 1) rest
    else filterIdxFrom j (i + 1) rest

/-- Replace the first element satisfying `p` by `f` applied to it; models
in-place mutation of the record found by `Array.prototype.find`. -/
def setFirst {α : Type} (p : α → Bool) (f : α → α) : List α → List α
  | [] => []
  | a :: rest => if p a then f a :: rest else a :: setFirst p f rest

/-- The in-place mutation of the found subscription on the update path (source
lines 161–165): replace `callback`, `lastMessageId` and `active`. -/
def updatedSub (topic : Topic) (callback : Nat) (startActive : Bool)
    (maybeExisting : Subscription) : Subscription :=
  { maybeExisting with
    callback := callback,
    lastMessageId := topic.messages.getLast?.map Message.id,
    active := startActive }

/-- Update path of `subscribe` (source lines 137–167): conditional backlog
replay, then in-place update of the existing subscription. -/
def subscribeUpdate (topic : Topic) (callback : Nat) (id : Nat)
    (backlogStrategy : BacklogStrategy) (startActive : Bool)
    (maybeExisting : Subscription) : Topic × Subscription × List Event :=
  let messages := topic.messages
  let lastMessage := messages.getLast?
  let lastMessageId := lastMessage.map Message.id
  let events :=
    if jsTruthyOptNat maybeExisting.lastMessageId
        && (maybeExisting.lastMessageId != lastMessageId)
        && lastMessage.isSome && startActive then
      match backlogStrategy with
      | BacklogStrategy.FULL =>
        let lastSeenMessageIndex :=
          findIndexJs (fun m => some m.id == maybeExisting.lastMessageId) messages
        let backlog := filterIdxFrom lastSeenMessageIndex 0 messages
        backlog.map (fun m => Event.mk id callback m)
      | BacklogStrategy.LATEST =>
        match lastMessage with
        | some lm => [Event.mk id callback lm]
        | none => []
      | BacklogStrategy.IGNORE => []
    else []
  let updated := updatedSub topic callback startActive maybeExisting
  ({ topic with
      subscriptions := setFirst (fun s => s.id == id) (fun _ => updated) topic.subscriptions },
    updated, events)

/-- Creation path of `subscribe` (source lines 169–191): backlog replay against
the full log, then a brand-new subscription is pushed and `nextSubId` bumped. -/
def subscribeCreate (topic : Topic) (callback : Nat) (id : Nat)
    (backlogStrategy : BacklogStrategy) (startActive : Bool) :
    Topic × Subscription × List Event :=
  let messages := topic.messages
  let lastMessage := messages.getLast?
  let lastMessageId := lastMessage.map Message.id
  let events :=
    match backlogStrategy with
    | BacklogStrategy.FULL => messages.map (fun m => Event.mk id callback m)
    | BacklogStrategy.LATEST =>
      match lastMessage with
      | some lm => [Event.mk id callback lm]
      | none => []
    | BacklogStrategy.IGNORE => []
  let subscription : Subscription :=
    { id := id, topic := topic.name, lastMessageId := lastMessageId,
      callback := callback, active := startActive }
  ({ topic with
      subscriptions := topic.subscriptions ++ [subscription],
      nextSubId := topic.nextSubId + 1 },
    subscription, events)

/-- Source `subscribe`: resolve the options, look up an existing subscription
with the effective id, and take the update or the creation path. -/
def subscribe (topic : Topic) (callback : Nat) (options : Option SubsciptionOptions) :
    Topic × Subscription × List Event :=
  let backlogStrategy := resolveBacklogStrategy options
  let startActive := resolveStartActive options
  let id := resolveId options topic
  match topic.subscriptions.find? (fun s => s.id == id) with
  | some maybeExisting => subscribeUpdate topic callback id backlogStrategy startActive maybeExisting
  | none => subscribeCreate topic callback id backlogStrategy startActive

/-- The `while (topic.messages.length > topic.maxLogSize) topic.messages.shift()`
loop from `cleanOldMessages`, as structural recursion on the log. -/
def shiftWhile : List Message → Int → List Message
  | [], _ => []
  | m :: rest, k =>
    if ((m :: rest).length : Int) > k then shiftWhile rest k else m :: rest

/-- Source `cleanOldMessages`: no-op for the infinite log (`maxLogSize = -1`),
otherwise drop from the front until the bound holds. -/
def cleanOldMessages (topic : Topic) : Topic :=
  if topic.maxLogSize = -1 then topic
  else { topic with messages := shiftWhile topic.messages topic.maxLogSize }

/-- The `forEach` fan-out loop of `sendMessage`: active subscriptions have their
callback invoked with the message and their cursor advanced; inactive ones are
left untouched. -/
def fanOut (subs : List Subscription) (message : Message) :
    List Subscription × List Event :=
  match subs with
  | [] => ([], [])
  | s :: rest =>
    let r := fanOut rest message
    if s.active then
      ({ s with lastMessageId := some message.id } :: r.1,
        Event.mk s.id s.callback message :: r.2)
    else (s :: r.1, r.2)

/-- Source `sendMessage`: build the message from `nextMessageID`, append it,
bump the counter, evict, then fan out to the subscriptions. -/
def sendMessage (topic : Topic) (payload : Nat) (now : Nat) : Topic × List Event :=
  let message : Message := { id := topic.nextMessageID, payload := payload, timestamp := now }
  let t1 := { topic with
    messages := topic.messages ++ [message], nextMessageID := topic.nextMessageID + 1 }
  let t2 := cleanOldMessages t1
  let r := fanOut t2.subscriptions message
  ({ t2 with subscriptions := r.1 }, r.2)

/-- Source `unsubscribe`, lifted to the topic state: the subscription object
mutated in place is the record with that id in the topic's list. -/
def unsubscribe (topic : Topic) (subId : Nat) : Topic :=
  { topic with
    subscriptions :=
      setFirst (fun s => s.id == subId) (fun s => { s with active := false })
        topic.subscriptions }

/-- Mirrors `maxLogSize || -1` from `getTopic`: `0` is falsy in JavaScript, so
both an absent argument and an explicit `0` yield `-1`. -/
def jsOrNeg1 (maxLogSize : Option Int) : Int :=
  match maxLogSize with
  | none => -1
  | some v => if v = 0 then -1 else v

/-- Source `getTopic`: return the existing topic of that name or create and
push a fresh one. -/
def getTopic (bus : Bus) (name : String) (maxLogSize : Option Int) : Bus × Topic :=
  match bus.topics.find? (fun t => t.name == name) with
  | some t => (bus, t)
  | none =>
    let topic : Topic :=
      { name := name, messages := [], subscriptions := [],
        maxLogSize := jsOrNeg1 maxLogSize, nextSubId := 0, nextMessageID := 0 }
    ({ topics := bus.topics ++ [topic] }, topic)

/-- A sequence of `sendMessage` calls, one per `(payload, now)` pair, keeping
only the final topic state. -/
def sendList (topic : Topic) (ps : List (Nat × Nat)) : Topic :=
  ps.foldl (fun t q => (sendMessage t q.1 q.2).1) topic

/-- Specification-side backlog replayer, following §4.3 of the spec word for
word: a pure function of the strategy, the candidate window of messages
(oldest first) and the callback; `ignore` replays nothing, `latest` replays
exactly the newest message of a non-empty window, `full` replays the whole
window oldest first.  Used to compare the code's replay behaviour against the
spec's description. -/
def replaySpec (strategy : BacklogStrategy) (window : List Message)
    (subId : Nat) (callback : Nat) : List Event :=
  match strategy with
  | BacklogStrategy.IGNORE => []
  | BacklogStrategy.LATEST =>
    match window.getLast? with
    | some m => [Event.mk subId callback m]
    | none => []
  | BacklogStrategy.FULL => window.map (fun m => Event.mk subId callback m)

example : jsOrNeg1 (some 0) = -1 := by decide
example : resolveStartActive (some ⟨none, none, some false⟩) = true := by decide
example :
    (sendMessage ⟨"t", [], [⟨0, "t", none, 5, true⟩], -1, 1, 0⟩ 9 3).2
      = [⟨0, 5, ⟨0, 9, 3⟩⟩] := by decide

/-! ### Projection lemmas -/

theorem cleanOldMessages_name (t : Topic) : (cleanOldMessages t).name = t.name := by
  unfold cleanOldMessages; split <;> rfl

theorem cleanOldMessages_subscriptions (t : Topic) :
    (cleanOldMessages t).subscriptions = t.subscriptions := by
  unfold cleanOldMessages; split <;> rfl

theorem cleanOldMessages_maxLogSize (t : Topic) :
    (cleanOldMessages t).maxLogSize = t.maxLogSize := by
  unfold cleanOldMessages; split <;> rfl

theorem cleanOldMessages_nextSubId (t : Topic) :
    (cleanOldMessages t).nextSubId = t.nextSubId := by
  unfold cleanOldMessages; split <;> rfl

theorem cleanOldMessages_nextMessageID (t : Topic) :
    (cleanOldMessages t).nextMessageID = t.nextMessageID := by
  unfold cleanOldMessages; split <;> rfl

theorem sendMessage_fst_subscriptions (t : Topic) (p now : Nat) :
    (sendMessage t p now).1.subscriptions
      = (fanOut t.subscriptions ⟨t.nextMessageID, p, now⟩).1 := by
  simp [sendMessage, cleanOldMessages_subscriptions]

theorem sendMessage_snd (t : Topic) (p now : Nat) :
    (sendMessage t p now).2 = (fanOut t.subscriptions ⟨t.nextMessageID, p, now⟩).2 := by
  simp [sendMessage, cleanOldMessages_subscriptions]

theorem sendMessage_fst_messages (t : Topic) (p now : Nat) :
    (sendMessage t p now).1.messages
      = (cleanOldMessages { t with
          messages := t.messages ++ [⟨t.nextMessageID, p, now⟩],
          nextMessageID := t.nextMessageID + 1 }).messages := by
  simp [sendMessage]

theorem sendMessage_fst_maxLogSize (t : Topic) (p now : Nat) :
    (sendMessage t p now).1.maxLogSize = t.maxLogSize := by
  simp [sendMessage, cleanOldMessages_maxLogSize]

theorem sendMessage_fst_nextMessageID (t : Topic) (p now : Nat) :
    (sendMessage t p now).1.nextMessageID = t.nextMessageID + 1 := by
  simp [sendMessage, cleanOldMessages_nextMessageID]

theorem sendMessage_fst_name (t : Topic) (p now : Nat) :
    (sendMessage t p now).1.name = t.name := by
  simp [sendMessage, cleanOldMessages_name]

theorem sendMessage_fst_nextSubId (t : Topic) (p now : Nat) :
    (sendMessage t p now).1.nextSubId = t.nextSubId := by
  simp [sendMessage, cleanOldMessages_nextSubId]

/-! ### `fanOut` lemmas -/

theorem fanOut_fst (subs : List Subscription) (m : Message) :
    (fanOut subs m).1
      = subs.map (fun s => if s.active then { s with lastMessageId := some m.id } else s) := by
  induction subs with
  | nil => rfl
  | cons s rest ih => by_cases h : s.active <;> simp [fanOut, h, ih]

theorem fanOut_snd (subs : List Subscription) (m : Message) :
    (fanOut subs m).2
      = (subs.filter (fun s => s.active)).map (fun s => Event.mk s.id s.callback m) := by
  induction subs with
  | nil => rfl
  | cons s rest ih => by_cases h : s.active <;> simp [fanOut, h, ih, List.filter_cons]

/-! ### `setFirst` and `find?` lemmas -/

theorem find?_middle {α : Type} (p : α → Bool) (pre : List α) (a : α) (post : List α)
    (hpre : ∀ x ∈ pre, p x = false) (ha : p a = true) :
    (pre ++ a :: post).find? p = some a := by
  induction pre with
  | nil => simp [List.find?_cons, ha]
  | cons b rest ih =>
    have hb : p b = false := hpre b (by simp)
    simp only [List.cons_append, List.find?_cons, hb]
    exact ih (fun x hx => hpre x (by simp [hx]))

theorem setFirst_middle {α : Type} (p : α → Bool) (f : α → α) (pre : List α) (a : α)
    (post : List α) (hpre : ∀ x ∈ pre, p x = false) (ha : p a = true) :
    setFirst p f (pre ++ a :: post) = pre ++ f a :: post := by
  induction pre with
  | nil => simp [setFirst, ha]
  | cons b rest ih =>
    have hb : p b = false := hpre b (by simp)
    simp only [List.cons_append, setFirst, hb]
    simp only [Bool.false_eq_true, if_false, List.cons.injEq, true_and]
    exact ih (fun x hx => hpre x (by simp [hx]))

theorem find?_decomp {α : Type} (p : α → Bool) (l : List α) (a : α)
    (h : l.find? p = some a) :
    ∃ pre post, l = pre ++ a :: post ∧ (∀ x ∈ pre, p x = false) ∧ p a = true := by
  induction l with
  | nil => simp [List.find?] at h
  | cons b rest ih =>
    by_cases hb : p b
    · refine ⟨[], rest, ?_, by simp, ?_⟩
      · simp only [List.find?_cons, hb, if_pos] at h
        simp_all [List.find?_cons_of_pos _ hb]
      · have : b = a := by simp_all [List.find?_cons_of_pos _ hb]
        simpa [this] using hb
    · have hb' : p b = false := by simpa using hb
      rw [List.find?_cons_of_neg _ hb] at h
      obtain ⟨pre, post, hl, hpre, hpa⟩ := ih h
      exact ⟨b :: pre, post, by simp [hl], by
        intro x hx
        rcases List.mem_cons.mp hx with rfl | hx
        · exact hb'
        · exact hpre x hx, hpa⟩

/-! ### `shiftWhile` and `filterIdxFrom` as `drop` -/

theorem shiftWhile_eq_drop (l : List Message) (k : Int) (hk : 0 ≤ k) :
    shiftWhile l k = l.drop (l.length - k.toNat) := by
  induction l with
  | nil => simp [shiftWhile]
  | cons m rest ih =>
    simp only [shiftWhile]
    split
    · next h =>
      have h2 : (m :: rest).length - k.toNat = (rest.length - k.toNat) + 1 := by
        simp only [List.length_cons] at h ⊢; omega
      rw [h2, List.drop_succ_cons, ih]
    · next h =>
      have h2 : (m :: rest).length - k.toNat = 0 := by
        simp only [List.length_cons] at h ⊢; omega
      rw [h2, List.drop_zero]

theorem filterIdxFrom_eq_drop (l : List Message) (j : Int) (s : Nat) :
    filterIdxFrom j s l = l.drop (j + 1 - (s : Int)).toNat := by
  induction l generalizing s with
  | nil => simp [filterIdxFrom]
  | cons m rest ih =>
    by_cases h : (s : Int) > j
    · have h0 : (j + 1 - (s : Int)).toNat = 0 := by omega
      have h1 : (j + 1 - ((s : Nat) + 1 : Int)).toNat = 0 := by omega
      simp only [filterIdxFrom, if_pos h, h0, List.drop_zero]
      have := ih (s + 1)
      push_cast at this
      rw [this, h1, List.drop_zero]
    · have h1 : (j + 1 - (s : Int)).toNat = (j + 1 - ((s : Nat) + 1 : Int)).toNat + 1 := by
        omega
      simp only [filterIdxFrom, if_neg h]
      have := ih (s + 1)
      push_cast at this
      rw [this, h1, List.drop_succ_cons]

/-! ### `findIndexJs` lemmas -/

theorem findIndexJs_ge_neg_one (p : Message → Bool) (l : List Message) :
    -1 ≤ findIndexJs p l := by
  induction l with
  | nil => simp [findIndexJs]
  | cons m rest ih =>
    by_cases h : p m
    · simp [findIndexJs, h]
    · simp only [findIndexJs, if_neg h]
      split <;> omega

theorem findIndexJs_nonneg_of_mem (p : Message → Bool) (l : List Message)
    (h : ∃ x ∈ l, p x = true) : 0 ≤ findIndexJs p l := by
  induction l with
  | nil => simp at h
  | cons m rest ih =>
    by_cases hm : p m
    · simp [findIndexJs, hm]
    · have : ∃ x ∈ rest, p x = true := by
        obtain ⟨x, hx, hpx⟩ := h
        rcases List.mem_cons.mp hx with rfl | hx
        · exact absurd hpx hm
        · exact ⟨x, hx, hpx⟩
      have hr := ih this
      simp only [findIndexJs, if_neg hm]
      split <;> omega

theorem findIndexJs_eq_neg_one_of_not_mem (p : Message → Bool) (l : List Message)
    (h : ∀ x ∈ l, p x = false) : findIndexJs p l = -1 := by
  induction l with
  | nil => rfl
  | cons m rest ih =>
    have hm : p m = false := h m (by simp)
    have hr : findIndexJs p rest = -1 := ih (fun x hx => h x (by simp [hx]))
    simp [findIndexJs, hm, hr]

/-! ### Sorted-log lemmas -/

theorem getLast?_mem' {α : Type} (l : List α) (a : α) (h : l.getLast? = some a) : a ∈ l := by
  induction l with
  | nil => simp at h
  | cons b rest ih =>
    match rest, ih with
    | [], _ => simp_all
    | c :: rest', ih =>
      rw [List.getLast?_cons_cons] at h
      exact List.mem_cons.mpr (Or.inr (ih h))

theorem getLast?_filter (p : Message → Bool) (l : List Message) (a : Message)
    (h : l.getLast? = some a) (hpa : p a = true) :
    (l.filter p).getLast? = some a := by
  induction l with
  | nil => simp at h
  | cons b rest ih =>
    match rest, ih with
    | [], _ =>
      simp only [List.getLast?_singleton, Option.some.injEq] at h
      subst h
      simp [List.filter_cons, hpa]
    | c :: rest', ih =>
      rw [List.getLast?_cons_cons] at h
      have htail := ih h
      rw [List.filter_cons]
      split
      · have hne : (c :: rest').filter p ≠ [] := by
          intro hnil
          rw [hnil] at htail
          simp at htail
        match hfp : (c :: rest').filter p, hne with
        | d :: ds, _ =>
          rw [hfp] at htail
          rw [List.getLast?_cons_cons]
          exact htail
      · exact htail

theorem lt_getLast_of_sorted (ids : List Nat) (a c : Nat)
    (hsorted : ids.Pairwise (· < ·)) (hlast : ids.getLast? = some a)
    (hmem : c ∈ ids) (hne : c ≠ a) : c < a := by
  induction ids with
  | nil => simp at hmem
  | cons b rest ih =>
    match rest with
    | [] =>
      simp only [List.getLast?_singleton, Option.some.injEq] at hlast
      subst hlast
      simp only [List.mem_singleton] at hmem
      exact absurd hmem hne
    | d :: rest' =>
      rw [List.getLast?_cons_cons] at hlast
      rw [List.pairwise_cons] at hsorted
      rcases List.mem_cons.mp hmem with rfl | hmem'
      · exact hsorted.1 a (getLast?_mem' _ _ hlast)
      · exact ih hsorted.2 hlast hmem'

theorem drop_findIndexJs_filter (l : List Message) (c : Nat)
    (hsorted : l.Pairwise (fun a b => a.id < b.id))
    (hmem : c ∈ l.map Message.id) :
    l.drop (findIndexJs (fun m => some m.id == some c) l + 1).toNat
      = l.filter (fun m => decide (c < m.id)) := by
  induction l with
  | nil => simp at hmem
  | cons m rest ih =>
    rw [List.pairwise_cons] at hsorted
    by_cases hm : m.id = c
    · have hfi : findIndexJs (fun x => some x.id == some c) (m :: rest) = 0 := by
        simp [findIndexJs, hm]
      rw [hfi]
      have h1 : ((0 : Int) + 1).toNat = 1 := rfl
      rw [h1]
      have hrest : rest.filter (fun x => decide (c < x.id)) = rest :=
        List.filter_eq_self.mpr (fun x hx => by
          have := hsorted.1 x hx
          simp only [decide_eq_true_eq]
          omega)
      rw [List.filter_cons]
      simp [show ¬ (c < m.id) by omega, hrest]
    · have hp : (some m.id == some c) = false := by simp [hm]
      have hmem' : c ∈ rest.map Message.id := by
        simp only [List.map_cons, List.mem_cons] at hmem
        rcases hmem with h | h
        · exact absurd h.symm hm
        · exact h
      have hex : ∃ x ∈ rest, (some x.id == some c) = true := by
        obtain ⟨x, hx, hxid⟩ := List.mem_map.mp hmem'
        exact ⟨x, hx, by simp [hxid]⟩
      have hr0 : 0 ≤ findIndexJs (fun x => some x.id == some c) rest :=
        findIndexJs_nonneg_of_mem _ _ hex
      have hfi : findIndexJs (fun x => some x.id == some c) (m :: rest)
          = findIndexJs (fun x => some x.id == some c) rest + 1 := by
        simp only [findIndexJs, hp, Bool.false_eq_true, if_false]
        rw [if_neg (by omega)]
      rw [hfi]
      have ht : (findIndexJs (fun x => some x.id == some c) rest + 1 + 1).toNat
          = (findIndexJs (fun x => some x.id == some c) rest + 1).toNat + 1 := by omega
      rw [ht, List.drop_succ_cons, ih hsorted.2 hmem']
      have hmlt : m.id < c := by
        obtain ⟨x, hx, hxid⟩ := List.mem_map.mp hmem'
        have := hsorted.1 x hx
        omega
      rw [List.filter_cons]
      simp [show ¬ (c < m.id) by omega]

theorem backlog_window_of_mem (l : List Message) (c : Nat)
    (hsorted : l.Pairwise (fun a b => a.id < b.id))
    (hmem : c ∈ l.map Message.id) :
    filterIdxFrom (findIndexJs (fun m => some m.id == some c) l) 0 l
      = l.filter (fun m => decide (c < m.id)) := by
  rw [filterIdxFrom_eq_drop]
  have : (findIndexJs (fun m => some m.id == some c) l + 1 - ((0 : Nat) : Int))
      = findIndexJs (fun m => some m.id == some c) l + 1 := by omega
  rw [this]
  exact drop_findIndexJs_filter l c hsorted hmem

theorem backlog_window_of_not_mem (l : List Message) (c : Nat)
    (hnot : c ∉ l.map Message.id) :
    filterIdxFrom (findIndexJs (fun m => some m.id == some c) l) 0 l = l := by
  have hfi : findIndexJs (fun m => some m.id == some c) l = -1 := by
    apply findIndexJs_eq_neg_one_of_not_mem
    intro x hx
    by_contra hxc
    exact hnot (List.mem_map.mpr ⟨x, hx, by simpa using hxc⟩)
  rw [hfi, filterIdxFrom_eq_drop]
  simp

/-! ### Unfolding `subscribe` into its two paths -/

theorem subscribe_eq_update (t : Topic) (cb : Nat) (opts : Option SubsciptionOptions)
    (ex : Subscription)
    (h : t.subscriptions.find? (fun s => s.id == resolveId opts t) = some ex) :
    subscribe t cb opts
      = subscribeUpdate t cb (resolveId opts t) (resolveBacklogStrategy opts)
          (resolveStartActive opts) ex := by
  simp only [subscribe]
  rw [h]

theorem subscribe_eq_create (t : Topic) (cb : Nat) (opts : Option SubsciptionOptions)
    (h : t.subscriptions.find? (fun s => s.id == resolveId opts t) = none) :
    subscribe t cb opts
      = subscribeCreate t cb (resolveId opts t) (resolveBacklogStrategy opts)
          (resolveStartActive opts) := by
  simp only [subscribe]
  rw [h]

/-! ### `sendList` lemmas -/

theorem sendList_cons (t : Topic) (q : Nat × Nat) (qs : List (Nat × Nat)) :
    sendList t (q :: qs) = sendList (sendMessage t q.1 q.2).1 qs := rfl

theorem sendList_unbounded_ids (ps : List (Nat × Nat)) (t : Topic)
    (h : t.maxLogSize = -1) :
    (sendList t ps).messages.map Message.id
      = t.messages.map Message.id ++ List.range' t.nextMessageID ps.length := by
  induction ps generalizing t with
  | nil => simp [sendList]
  | cons q qs ih =>
    have hmsg : (sendMessage t q.1 q.2).1.messages
        = t.messages ++ [⟨t.nextMessageID, q.1, q.2⟩] := by
      rw [sendMessage_fst_messages]
      simp [cleanOldMessages, h]
    have hml : (sendMessage t q.1 q.2).1.maxLogSize = -1 := by
      rw [sendMessage_fst_maxLogSize]; exact h
    rw [sendList_cons, ih _ hml, hmsg, sendMessage_fst_nextMessageID]
    simp [List.range'_succ]

/-! ### Claim theorems -/

/-- Claim C2: the claim states that `subscribe` with `options.startActive`
explicitly `false` yields a subscription with `active == false`, on both the
creation and the update path.  The code contradicts this (and its own doc
comment, which promises that a subscription "can be set to inactive in the
options"): the resolution `options && options.startActive ? options.startActive
: true` treats the boolean `false` as falsy and falls back to the default
`true`, so the stored `active` flag is `true` on the creation path and an
inactive subscription is even reactivated on the update path. -/
theorem subscribe_startActive_false_ignored :
    (subscribe ⟨"t", [], [], -1, 0, 0⟩ 1
        (some ⟨none, none, some false⟩)).2.1.active = true
    ∧ (subscribe ⟨"t", [], [⟨0, "t", none, 1, false⟩], -1, 1, 0⟩ 2
        (some ⟨some 0, none, some false⟩)).2.1.active = true := by
  decide

/-- Claim C4: `sendMessage` appends the freshly numbered message (eviction
applied immediately), then visits the subscriptions in registration order:
every active subscription produces exactly one callback invocation carrying the
new message and has its cursor set to the new id, while inactive subscriptions
are skipped and left untouched. -/
theorem sendMessage_spec (t : Topic) (p now : Nat) :
    (sendMessage t p now).2
      = (t.subscriptions.filter (fun s => s.active)).map
          (fun s => Event.mk s.id s.callback ⟨t.nextMessageID, p, now⟩)
    ∧ (sendMessage t p now).1.subscriptions
      = t.subscriptions.map
          (fun s => if s.active then { s with lastMessageId := some t.nextMessageID } else s)
    ∧ (sendMessage t p now).1.messages
      = (if t.maxLogSize = -1 then t.messages ++ [⟨t.nextMessageID, p, now⟩]
          else shiftWhile (t.messages ++ [⟨t.nextMessageID, p, now⟩]) t.maxLogSize)
    ∧ (sendMessage t p now).1.nextMessageID = t.nextMessageID + 1 := by
  refine ⟨?_, ?_, ?_, sendMessage_fst_nextMessageID t p now⟩
  · rw [sendMessage_snd, fanOut_snd]
  · rw [sendMessage_fst_subscriptions, fanOut_fst]
  · rw [sendMessage_fst_messages]
    simp only [cleanOldMessages]
    split <;> rfl

/-- Claim C6: on a topic created unbounded (`maxLogSize = -1`), a sequence of
`n` sends leaves a log of length `n` whose message ids are exactly `0..n-1` in
increasing order. -/
theorem send_unbounded_log (name : String) (ps : List (Nat × Nat)) :
    (sendList (getTopic ⟨[]⟩ name none).2 ps).messages.length = ps.length
    ∧ (sendList (getTopic ⟨[]⟩ name none).2 ps).messages.map Message.id
        = List.range ps.length := by
  have h0 : (getTopic ⟨[]⟩ name none).2 = ⟨name, [], [], -1, 0, 0⟩ := rfl
  have hids := sendList_unbounded_ids ps ⟨name, [], [], -1, 0, 0⟩ rfl
  simp only [List.map_nil, List.nil_append] at hids
  rw [h0]
  constructor
  · have := congrArg List.length hids
    simpa using this
  · rw [hids, ← List.range_eq_range']

theorem drop_append_drop {α : Type} (A B : List α) (d e : Nat) (hd : d ≤ A.length) :
    (A.drop d ++ B).drop e = (A ++ B).drop (d + e) := by
  rw [← List.drop_drop, List.drop_append_of_le_length hd]

theorem cleanOldMessages_messages_of_pos (t : Topic) (k : Nat) (hk : 1 ≤ k)
    (h : t.maxLogSize = (k : Int)) :
    (cleanOldMessages t).messages = t.messages.drop (t.messages.length - k) := by
  unfold cleanOldMessages
  rw [if_neg (by rw [h]; omega)]
  simp only [h]
  rw [shiftWhile_eq_drop _ _ (by omega)]
  simp

theorem sendList_bounded_inv (ps : List (Nat × Nat)) (t : Topic) (k : Nat) (hk : 1 ≤ k)
    (hml : t.maxLogSize = (k : Int)) (hlen : t.messages.length ≤ k) :
    (sendList t ps).messages.map Message.id
      = (t.messages.map Message.id ++ List.range' t.nextMessageID ps.length).drop
          (t.messages.length + ps.length - k)
    ∧ (sendList t ps).messages.length = min (t.messages.length + ps.length) k := by
  induction ps generalizing t with
  | nil =>
    constructor
    · simp only [List.length_nil, Nat.add_zero, List.range'_zero, List.append_nil]
      have h0 : t.messages.length - k = 0 := by omega
      rw [h0]
      simp [sendList]
    · simp only [sendList, List.foldl_nil, List.length_nil, Nat.add_zero]
      omega
  | cons q qs ih =>
    have hmsg : (sendMessage t q.1 q.2).1.messages
        = (t.messages ++ [Message.mk t.nextMessageID q.1 q.2]).drop
            (t.messages.length + 1 - k) := by
      rw [sendMessage_fst_messages]
      rw [cleanOldMessages_messages_of_pos _ k hk]
      · simp
      · exact hml
    have hml' : (sendMessage t q.1 q.2).1.maxLogSize = (k : Int) := by
      rw [sendMessage_fst_maxLogSize]; exact hml
    have hlen' : (sendMessage t q.1 q.2).1.messages.length = min (t.messages.length + 1) k := by
      rw [hmsg]
      simp only [List.length_drop, List.length_append, List.length_cons, List.length_nil]
      omega
    obtain ⟨ih1, ih2⟩ := ih (sendMessage t q.1 q.2).1 hml' (by rw [hlen']; omega)
    rw [sendList_cons]
    constructor
    · rw [ih1, hlen', sendMessage_fst_nextMessageID, hmsg]
      rw [List.map_drop, List.map_append]
      rw [drop_append_drop _ _ _ _ (by simp)]
      have harith : t.messages.length + 1 - k
            + (min (t.messages.length + 1) k + qs.length - k)
          = t.messages.length + (q :: qs).length - k := by
        simp only [List.length_cons]
        omega
      rw [harith]
      simp [List.range'_succ]
    · rw [ih2, hlen']
      have : min (min (t.messages.length + 1) k + qs.length) k
          = min (t.messages.length + (q :: qs).length) k := by
        simp only [List.length_cons]; omega
      rw [this]

/-- Claim C3 counterexample: the claim quantifies over `maxLogSize = k ≥ 0`,
but a topic created with `maxLogSize = 0` is in fact unbounded: `getTopic`
resolves the bound with `maxLogSize || -1`, and `0` is falsy in JavaScript, so
it is replaced by `-1`.  After one send the log has length `1`, not
`min 1 0 = 0`. -/
theorem send_bounded_log_k0_counterexample :
    (getTopic ⟨[]⟩ "t" (some 0)).2.maxLogSize = -1
    ∧ (sendList (getTopic ⟨[]⟩ "t" (some 0)).2 [(0, 0)]).messages.length = 1
    ∧ (1 : Nat) ≠ min 1 0 := by
  decide

/-- Claim C3 (amended to `k ≥ 1`): on a topic created with `maxLogSize = k ≥ 1`,
after any sequence of `n` sends the log length is `min n k` and the retained
ids are the `k` most recent of `0..n-1` (i.e. `(range n).drop (n - k)`).  For
`k = 0` the claim fails, see the counterexample: the topic is created unbounded
instead. -/
theorem send_bounded_log (k : Nat) (hk : 1 ≤ k) (name : String) (ps : List (Nat × Nat)) :
    (sendList (getTopic ⟨[]⟩ name (some (k : Int))).2 ps).messages.length = min ps.length k
    ∧ (sendList (getTopic ⟨[]⟩ name (some (k : Int))).2 ps).messages.map Message.id
        = (List.range ps.length).drop (ps.length - k) := by
  have hkz : ¬((k : Int) = 0) := by omega
  have h0 : (getTopic ⟨[]⟩ name (some (k : Int))).2 = ⟨name, [], [], (k : Int), 0, 0⟩ := by
    simp [getTopic, jsOrNeg1, hkz]
  rw [h0]
  obtain ⟨h1, h2⟩ := sendList_bounded_inv ps ⟨name, [], [], (k : Int), 0, 0⟩ k hk rfl (by simp)
  refine ⟨by simpa using h2, ?_⟩
  rw [h1, ← List.range_eq_range']
  simp

/-- Claim C3 witness: instantiation at `k = 2` and three sends. -/
theorem send_bounded_log_witness :
    1 ≤ 2
    ∧ ((sendList (getTopic ⟨[]⟩ "t" (some ((2 : Nat) : Int))).2
          [(5, 0), (6, 1), (7, 2)]).messages.length = min 3 2
    ∧ (sendList (getTopic ⟨[]⟩ "t" (some ((2 : Nat) : Int))).2
          [(5, 0), (6, 1), (7, 2)]).messages.map Message.id = (List.range 3).drop (3 - 2)) :=
  ⟨by decide, send_bounded_log 2 (by decide) "t" [(5, 0), (6, 1), (7, 2)]⟩

theorem resolveStartActive_true (options : Option SubsciptionOptions) :
    resolveStartActive options = true := by
  rcases options with _ | ⟨i, s, a⟩
  · rfl
  · rcases a with _ | b
    · rfl
    · cases b <;> rfl

theorem subscribeUpdate_fst (t : Topic) (cb id : Nat) (strat : BacklogStrategy)
    (sa : Bool) (ex : Subscription) :
    (subscribeUpdate t cb id strat sa ex).1
      = { t with
          subscriptions :=
            setFirst (fun s => s.id == id) (fun _ => updatedSub t cb sa ex)
              t.subscriptions } := rfl

theorem subscribeUpdate_snd_fst (t : Topic) (cb id : Nat) (strat : BacklogStrategy)
    (sa : Bool) (ex : Subscription) :
    (subscribeUpdate t cb id strat sa ex).2.1 = updatedSub t cb sa ex := rfl

theorem updatedSub_id (t : Topic) (cb : Nat) (sa : Bool) (ex : Subscription) :
    (updatedSub t cb sa ex).id = ex.id := rfl

theorem updatedSub_topic (t : Topic) (cb : Nat) (sa : Bool) (ex : Subscription) :
    (updatedSub t cb sa ex).topic = ex.topic := rfl

/-- Claim C5: a `subscribe` call that takes the creation path (no existing
subscription with the effective id) replays the backlog against the full
current log exactly as §4.3 of the spec prescribes for the chosen strategy —
`ignore`: no invocation; `latest`: exactly one invocation with the newest
message iff the log is non-empty; `full`: one invocation per retained message,
oldest first — and stores the new subscription with `lastMessageId` equal to
the newest message's id (or `null` on an empty log). -/
theorem subscribe_create_replay (t : Topic) (cb : Nat) (opts : Option SubsciptionOptions)
    (hfind : t.subscriptions.find? (fun s => s.id == resolveId opts t) = none) :
    (subscribe t cb opts).2.2
      = replaySpec (resolveBacklogStrategy opts) t.messages (resolveId opts t) cb
    ∧ (subscribe t cb opts).2.1.lastMessageId = t.messages.getLast?.map Message.id
    ∧ (subscribe t cb opts).2.1.id = resolveId opts t
    ∧ (subscribe t cb opts).2.1.active = true := by
  rw [subscribe_eq_create t cb opts hfind]
  refine ⟨?_, rfl, rfl, ?_⟩
  · simp only [subscribeCreate, replaySpec]
    cases resolveBacklogStrategy opts with
    | IGNORE => rfl
    | FULL => rfl
    | LATEST => cases t.messages.getLast? <;> rfl
  · show resolveStartActive opts = true
    exact resolveStartActive_true opts

/-- Claim C5 witness: creation-path subscribe with strategy `full` on a topic
holding two messages. -/
theorem subscribe_create_replay_witness :
    (Topic.mk "t" [⟨0, 5, 0⟩, ⟨1, 6, 1⟩] [] (-1) 0 2).subscriptions.find?
        (fun s => s.id == resolveId (some ⟨some 3, some BacklogStrategy.FULL, none⟩)
          (Topic.mk "t" [⟨0, 5, 0⟩, ⟨1, 6, 1⟩] [] (-1) 0 2)) = none
    ∧ ((subscribe (Topic.mk "t" [⟨0, 5, 0⟩, ⟨1, 6, 1⟩] [] (-1) 0 2) 9
          (some ⟨some 3, some BacklogStrategy.FULL, none⟩)).2.2
        = replaySpec (resolveBacklogStrategy (some ⟨some 3, some BacklogStrategy.FULL, none⟩))
            (Topic.mk "t" [⟨0, 5, 0⟩, ⟨1, 6, 1⟩] [] (-1) 0 2).messages
            (resolveId (some ⟨some 3, some BacklogStrategy.FULL, none⟩)
              (Topic.mk "t" [⟨0, 5, 0⟩, ⟨1, 6, 1⟩] [] (-1) 0 2)) 9
      ∧ (subscribe (Topic.mk "t" [⟨0, 5, 0⟩, ⟨1, 6, 1⟩] [] (-1) 0 2) 9
          (some ⟨some 3, some BacklogStrategy.FULL, none⟩)).2.1.lastMessageId
        = (Topic.mk "t" [⟨0, 5, 0⟩, ⟨1, 6, 1⟩] [] (-1) 0 2).messages.getLast?.map Message.id
      ∧ (subscribe (Topic.mk "t" [⟨0, 5, 0⟩, ⟨1, 6, 1⟩] [] (-1) 0 2) 9
          (some ⟨some 3, some BacklogStrategy.FULL, none⟩)).2.1.id
        = resolveId (some ⟨some 3, some BacklogStrategy.FULL, none⟩)
            (Topic.mk "t" [⟨0, 5, 0⟩, ⟨1, 6, 1⟩] [] (-1) 0 2)
      ∧ (subscribe (Topic.mk "t" [⟨0, 5, 0⟩, ⟨1, 6, 1⟩] [] (-1) 0 2) 9
          (some ⟨some 3, some BacklogStrategy.FULL, none⟩)).2.1.active = true) :=
  ⟨by decide,
    subscribe_create_replay (Topic.mk "t" [⟨0, 5, 0⟩, ⟨1, 6, 1⟩] [] (-1) 0 2) 9
      (some ⟨some 3, some BacklogStrategy.FULL, none⟩) (by decide)⟩

/-- Claim C7: re-subscribing with an existing id mutates the existing record in
place: the subscription list keeps its length and id/topic order, the returned
subscription keeps the original id and topic binding (the topic cannot be
changed), it is exactly the record now stored in the list, `nextSubId` is not
incremented, and every other topic field is untouched. -/
theorem subscribe_update_frame (t : Topic) (cb : Nat) (opts : Option SubsciptionOptions)
    (ex : Subscription)
    (hfind : t.subscriptions.find? (fun s => s.id == resolveId opts t) = some ex) :
    (subscribe t cb opts).1.nextSubId = t.nextSubId
    ∧ (subscribe t cb opts).1.subscriptions.length = t.subscriptions.length
    ∧ (subscribe t cb opts).1.subscriptions.map Subscription.id
        = t.subscriptions.map Subscription.id
    ∧ (subscribe t cb opts).1.subscriptions.map Subscription.topic
        = t.subscriptions.map Subscription.topic
    ∧ (subscribe t cb opts).2.1.id = ex.id
    ∧ (subscribe t cb opts).2.1.topic = ex.topic
    ∧ (subscribe t cb opts).1.subscriptions.find? (fun s => s.id == resolveId opts t)
        = some (subscribe t cb opts).2.1
    ∧ (subscribe t cb opts).1.messages = t.messages
    ∧ (subscribe t cb opts).1.name = t.name
    ∧ (subscribe t cb opts).1.maxLogSize = t.maxLogSize
    ∧ (subscribe t cb opts).1.nextMessageID = t.nextMessageID := by
  rw [subscribe_eq_update t cb opts ex hfind]
  obtain ⟨pre, post, hl, hpre, hpa⟩ := find?_decomp _ _ _ hfind
  have hpu : ((updatedSub t cb (resolveStartActive opts) ex).id == resolveId opts t) = true := by
    rw [updatedSub_id]
    simpa using hpa
  have hsubs : setFirst (fun s => s.id == resolveId opts t)
      (fun _ => updatedSub t cb (resolveStartActive opts) ex) t.subscriptions
      = pre ++ updatedSub t cb (resolveStartActive opts) ex :: post := by
    rw [hl]
    exact setFirst_middle _ _ pre ex post hpre hpa
  rw [subscribeUpdate_fst, subscribeUpdate_snd_fst]
  refine ⟨rfl, ?_, ?_, ?_, rfl, rfl, ?_, rfl, rfl, rfl, rfl⟩
  · show (setFirst (fun s => s.id == resolveId opts t)
        (fun _ => updatedSub t cb (resolveStartActive opts) ex) t.subscriptions).length
      = t.subscriptions.length
    rw [hsubs, hl]
    simp
  · show (setFirst (fun s => s.id == resolveId opts t)
        (fun _ => updatedSub t cb (resolveStartActive opts) ex) t.subscriptions).map
          Subscription.id
      = t.subscriptions.map Subscription.id
    rw [hsubs]
    conv_rhs => rw [hl]
    simp [updatedSub]
  · show (setFirst (fun s => s.id == resolveId opts t)
        (fun _ => updatedSub t cb (resolveStartActive opts) ex) t.subscriptions).map
          Subscription.topic
      = t.subscriptions.map Subscription.topic
    rw [hsubs]
    conv_rhs => rw [hl]
    simp [updatedSub]
  · show (setFirst (fun s => s.id == resolveId opts t)
        (fun _ => updatedSub t cb (resolveStartActive opts) ex) t.subscriptions).find?
          (fun s => s.id == resolveId opts t)
      = some (updatedSub t cb (resolveStartActive opts) ex)
    rw [hsubs]
    exact find?_middle _ pre _ post hpre hpu

/-- Claim C7 witness: re-subscribing id 1 on a topic with two subscriptions. -/
theorem subscribe_update_frame_witness :
    (Topic.mk "t" [] [⟨0, "t", none, 5, true⟩, ⟨1, "t", none, 6, true⟩] (-1) 2 0).subscriptions.find?
        (fun s => s.id == resolveId (some ⟨some 1, none, none⟩)
          (Topic.mk "t" [] [⟨0, "t", none, 5, true⟩, ⟨1, "t", none, 6, true⟩] (-1) 2 0))
      = some ⟨1, "t", none, 6, true⟩
    ∧ ((subscribe (Topic.mk "t" [] [⟨0, "t", none, 5, true⟩, ⟨1, "t", none, 6, true⟩] (-1) 2 0) 7
          (some ⟨some 1, none, none⟩)).1.nextSubId
        = (Topic.mk "t" [] [⟨0, "t", none, 5, true⟩, ⟨1, "t", none, 6, true⟩] (-1) 2 0).nextSubId
      ∧ (subscribe (Topic.mk "t" [] [⟨0, "t", none, 5, true⟩, ⟨1, "t", none, 6, true⟩] (-1) 2 0) 7
          (some ⟨some 1, none, none⟩)).1.subscriptions.length
        = (Topic.mk "t" [] [⟨0, "t", none, 5, true⟩, ⟨1, "t", none, 6, true⟩] (-1) 2 0).subscriptions.length
      ∧ (subscribe (Topic.mk "t" [] [⟨0, "t", none, 5, true⟩, ⟨1, "t", none, 6, true⟩] (-1) 2 0) 7
          (some ⟨some 1, none, none⟩)).1.subscriptions.map Subscription.id
        = (Topic.mk "t" [] [⟨0, "t", none, 5, true⟩, ⟨1, "t", none, 6, true⟩] (-1) 2 0).subscriptions.map Subscription.id
      ∧ (subscribe (Topic.mk "t" [] [⟨0, "t", none, 5, true⟩, ⟨1, "t", none, 6, true⟩] (-1) 2 0) 7
          (some ⟨some 1, none, none⟩)).1.subscriptions.map Subscription.topic
        = (Topic.mk "t" [] [⟨0, "t", none, 5, true⟩, ⟨1, "t", none, 6, true⟩] (-1) 2 0).subscriptions.map Subscription.topic
      ∧ (subscribe (Topic.mk "t" [] [⟨0, "t", none, 5, true⟩, ⟨1, "t", none, 6, true⟩] (-1) 2 0) 7
          (some ⟨some 1, none, none⟩)).2.1.id = (1 : Nat)
      ∧ (subscribe (Topic.mk "t" [] [⟨0, "t", none, 5, true⟩, ⟨1, "t", none, 6, true⟩] (-1) 2 0) 7
          (some ⟨some 1, none, none⟩)).2.1.topic = "t"
      ∧ (subscribe (Topic.mk "t" [] [⟨0, "t", none, 5, true⟩, ⟨1, "t", none, 6, true⟩] (-1) 2 0) 7
          (some ⟨some 1, none, none⟩)).1.subscriptions.find?
            (fun s => s.id == resolveId (some ⟨some 1, none, none⟩)
              (Topic.mk "t" [] [⟨0, "t", none, 5, true⟩, ⟨1, "t", none, 6, true⟩] (-1) 2 0))
        = some (subscribe (Topic.mk "t" [] [⟨0, "t", none, 5, true⟩, ⟨1, "t", none, 6, true⟩] (-1) 2 0) 7
            (some ⟨some 1, none, none⟩)).2.1
      ∧ (subscribe (Topic.mk "t" [] [⟨0, "t", none, 5, true⟩, ⟨1, "t", none, 6, true⟩] (-1) 2 0) 7
          (some ⟨some 1, none, none⟩)).1.messages = []
      ∧ (subscribe (Topic.mk "t" [] [⟨0, "t", none, 5, true⟩, ⟨1, "t", none, 6, true⟩] (-1) 2 0) 7
          (some ⟨some 1, none, none⟩)).1.name = "t"
      ∧ (subscribe (Topic.mk "t" [] [⟨0, "t", none, 5, true⟩, ⟨1, "t", none, 6, true⟩] (-1) 2 0) 7
          (some ⟨some 1, none, none⟩)).1.maxLogSize = -1
      ∧ (subscribe (Topic.mk "t" [] [⟨0, "t", none, 5, true⟩, ⟨1, "t", none, 6, true⟩] (-1) 2 0) 7
          (some ⟨some 1, none, none⟩)).1.nextMessageID = 0) :=
  ⟨by decide,
    subscribe_update_frame
      (Topic.mk "t" [] [⟨0, "t", none, 5, true⟩, ⟨1, "t", none, 6, true⟩] (-1) 2 0) 7
      (some ⟨some 1, none, none⟩) ⟨1, "t", none, 6, true⟩ (by decide)⟩

theorem fanOut_fst_find? (subs : List Subscription) (m : Message) (n : Nat) :
    (fanOut subs m).1.find? (fun x => x.id == n)
      = (subs.find? (fun x => x.id == n)).map
          (fun x => if x.active then { x with lastMessageId := some m.id } else x) := by
  induction subs with
  | nil => rfl
  | cons a rest ih =>
    by_cases ha : a.active
    · by_cases hid : (a.id == n) = true
      · simp [fanOut, ha, List.find?_cons, hid]
      · have hid' : (a.id == n) = false := by simpa using hid
        simp [fanOut, ha, List.find?_cons, hid', ih]
    · have ha' : a.active = false := by simpa using ha
      by_cases hid : (a.id == n) = true
      · simp [fanOut, ha', List.find?_cons, hid]
      · have hid' : (a.id == n) = false := by simpa using hid
        simp [fanOut, ha', List.find?_cons, hid', ih]

/-- Claim C8: `unsubscribe` sets the subscription's `active` flag to `false`
and changes nothing else (the record stays in the topic's list with its
callback and cursor intact, all other topic fields untouched); it is
idempotent; and afterwards a `send` produces no invocation attributed to that
subscription and leaves its record — in particular its cursor — unchanged. -/
theorem unsubscribe_spec (t : Topic) (subId : Nat) (s : Subscription) (p now : Nat)
    (hfind : t.subscriptions.find? (fun x => x.id == subId) = some s)
    (hnd : (t.subscriptions.map Subscription.id).Nodup) :
    (unsubscribe t subId).messages = t.messages
    ∧ (unsubscribe t subId).name = t.name
    ∧ (unsubscribe t subId).maxLogSize = t.maxLogSize
    ∧ (unsubscribe t subId).nextSubId = t.nextSubId
    ∧ (unsubscribe t subId).nextMessageID = t.nextMessageID
    ∧ (unsubscribe t subId).subscriptions.map Subscription.id
        = t.subscriptions.map Subscription.id
    ∧ (unsubscribe t subId).subscriptions.map Subscription.callback
        = t.subscriptions.map Subscription.callback
    ∧ (unsubscribe t subId).subscriptions.map Subscription.lastMessageId
        = t.subscriptions.map Subscription.lastMessageId
    ∧ (unsubscribe t subId).subscriptions.find? (fun x => x.id == subId)
        = some { s with active := false }
    ∧ unsubscribe (unsubscribe t subId) subId = unsubscribe t subId
    ∧ (∀ e ∈ (sendMessage (unsubscribe t subId) p now).2, e.subId ≠ subId)
    ∧ (sendMessage (unsubscribe t subId) p now).1.subscriptions.find?
        (fun x => x.id == subId) = some { s with active := false } := by
  obtain ⟨pre, post, hl, hpre, hpa⟩ := find?_decomp _ _ _ hfind
  have hsid : s.id = subId := by simpa using hpa
  have hsubs : (unsubscribe t subId).subscriptions
      = pre ++ { s with active := false } :: post := by
    show setFirst (fun x => x.id == subId) (fun x => { x with active := false })
      t.subscriptions = _
    rw [hl]
    exact setFirst_middle _ _ pre s post hpre hpa
  have hps' : (({ s with active := false } : Subscription).id == subId) = true := hpa
  have hndpost : subId ∉ post.map Subscription.id := by
    rw [hl] at hnd
    simp only [List.map_append, List.map_cons] at hnd
    have h2 := hnd.of_append_right
    rw [List.nodup_cons] at h2
    rw [← hsid]
    exact h2.1
  refine ⟨rfl, rfl, rfl, rfl, rfl, ?_, ?_, ?_, ?_, ?_, ?_, ?_⟩
  · rw [hsubs]
    conv_rhs => rw [hl]
    simp
  · rw [hsubs]
    conv_rhs => rw [hl]
    simp
  · rw [hsubs]
    conv_rhs => rw [hl]
    simp
  · rw [hsubs]
    exact find?_middle _ pre _ post hpre hps'
  · have hidem : setFirst (fun x => x.id == subId) (fun x => { x with active := false })
        (unsubscribe t subId).subscriptions = (unsubscribe t subId).subscriptions := by
      rw [hsubs]
      rw [setFirst_middle _ _ pre { s with active := false } post hpre hps']
    show ({ (unsubscribe t subId) with
        subscriptions := setFirst (fun x => x.id == subId)
          (fun x => { x with active := false }) (unsubscribe t subId).subscriptions } : Topic)
      = unsubscribe t subId
    rw [hidem]
  · intro e he
    rw [sendMessage_snd, fanOut_snd] at he
    obtain ⟨x, hx, hex⟩ := List.mem_map.mp he
    have hxa : x.active = true := (List.mem_filter.mp hx).2
    have hxmem : x ∈ (unsubscribe t subId).subscriptions := (List.mem_filter.mp hx).1
    rw [hsubs] at hxmem
    subst hex
    simp only [List.mem_append, List.mem_cons] at hxmem
    rcases hxmem with hxpre | hxs | hxpost
    · have := hpre x hxpre
      simpa using this
    · rw [hxs] at hxa
      simp at hxa
    · intro hcontra
      exact hndpost (List.mem_map.mpr ⟨x, hxpost, hcontra⟩)
  · rw [sendMessage_fst_subscriptions, fanOut_fst_find?]
    have hfind1 : (unsubscribe t subId).subscriptions.find? (fun x => x.id == subId)
        = some { s with active := false } := by
      rw [hsubs]
      exact find?_middle _ pre _ post hpre hps'
    rw [hfind1]
    simp

/-- Claim C8 witness: instantiation at a topic with a single active
subscription, one later send. -/
theorem unsubscribe_spec_witness :
    (Topic.mk "a" [] [Subscription.mk 0 "a" none 5 true] (-1) 1 0).subscriptions.find?
        (fun x => x.id == 0) = some (Subscription.mk 0 "a" none 5 true)
    ∧ ((Topic.mk "a" [] [Subscription.mk 0 "a" none 5 true] (-1) 1 0).subscriptions.map
        Subscription.id).Nodup
    ∧ ((unsubscribe (Topic.mk "a" [] [Subscription.mk 0 "a" none 5 true] (-1) 1 0) 0).messages
        = (Topic.mk "a" [] [Subscription.mk 0 "a" none 5 true] (-1) 1 0).messages
      ∧ (unsubscribe (Topic.mk "a" [] [Subscription.mk 0 "a" none 5 true] (-1) 1 0) 0).name
        = (Topic.mk "a" [] [Subscription.mk 0 "a" none 5 true] (-1) 1 0).name
      ∧ (unsubscribe (Topic.mk "a" [] [Subscription.mk 0 "a" none 5 true] (-1) 1 0) 0).maxLogSize
        = (Topic.mk "a" [] [Subscription.mk 0 "a" none 5 true] (-1) 1 0).maxLogSize
      ∧ (unsubscribe (Topic.mk "a" [] [Subscription.mk 0 "a" none 5 true] (-1) 1 0) 0).nextSubId
        = (Topic.mk "a" [] [Subscription.mk 0 "a" none 5 true] (-1) 1 0).nextSubId
      ∧ (unsubscribe (Topic.mk "a" [] [Subscription.mk 0 "a" none 5 true] (-1) 1 0) 0).nextMessageID
        = (Topic.mk "a" [] [Subscription.mk 0 "a" none 5 true] (-1) 1 0).nextMessageID
      ∧ (unsubscribe (Topic.mk "a" [] [Subscription.mk 0 "a" none 5 true] (-1) 1 0) 0).subscriptions.map
          Subscription.id
        = (Topic.mk "a" [] [Subscription.mk 0 "a" none 5 true] (-1) 1 0).subscriptions.map
          Subscription.id
      ∧ (unsubscribe (Topic.mk "a" [] [Subscription.mk 0 "a" none 5 true] (-1) 1 0) 0).subscriptions.map
          Subscription.callback
        = (Topic.mk "a" [] [Subscription.mk 0 "a" none 5 true] (-1) 1 0).subscriptions.map
          Subscription.callback
      ∧ (unsubscribe (Topic.mk "a" [] [Subscription.mk 0 "a" none 5 true] (-1) 1 0) 0).subscriptions.map
          Subscription.lastMessageId
        = (Topic.mk "a" [] [Subscription.mk 0 "a" none 5 true] (-1) 1 0).subscriptions.map
          Subscription.lastMessageId
      ∧ (unsubscribe (Topic.mk "a" [] [Subscription.mk 0 "a" none 5 true] (-1) 1 0) 0).subscriptions.find?
          (fun x => x.id == 0)
        = some { Subscription.mk 0 "a" none 5 true with active := false }
      ∧ unsubscribe (unsubscribe (Topic.mk "a" [] [Subscription.mk 0 "a" none 5 true] (-1) 1 0) 0) 0
        = unsubscribe (Topic.mk "a" [] [Subscription.mk 0 "a" none 5 true] (-1) 1 0) 0
      ∧ (∀ e ∈ (sendMessage (unsubscribe (Topic.mk "a" [] [Subscription.mk 0 "a" none 5 true] (-1) 1 0) 0) 7 9).2,
          e.subId ≠ 0)
      ∧ (sendMessage (unsubscribe (Topic.mk "a" [] [Subscription.mk 0 "a" none 5 true] (-1) 1 0) 0) 7 9).1.subscriptions.find?
          (fun x => x.id == 0)
        = some { Subscription.mk 0 "a" none 5 true with active := false }) :=
  ⟨by decide, by decide,
    unsubscribe_spec (Topic.mk "a" [] [Subscription.mk 0 "a" none 5 true] (-1) 1 0) 0
      (Subscription.mk 0 "a" none 5 true) 7 9 (by decide) (by decide)⟩

/-- Claim C10: when the topic already holds a subscription whose id equals
`topic.nextSubId`, a `subscribe` call without an explicit id resolves to that
id, takes the update path (no new subscription, `nextSubId` unchanged), and
afterwards the topic again holds the returned subscription under id
`nextSubId` — so id-less subscribes can never create a new subscription on
this topic again. -/
theorem subscribe_autoid_update (t : Topic) (cb : Nat) (opts : Option SubsciptionOptions)
    (ex : Subscription)
    (hid : opts.bind SubsciptionOptions.id = none)
    (hfind : t.subscriptions.find? (fun s => s.id == t.nextSubId) = some ex) :
    resolveId opts t = t.nextSubId
    ∧ (subscribe t cb opts).1.nextSubId = t.nextSubId
    ∧ (subscribe t cb opts).1.subscriptions.length = t.subscriptions.length
    ∧ (subscribe t cb opts).2.1.id = t.nextSubId
    ∧ (subscribe t cb opts).1.subscriptions.find?
        (fun s => s.id == (subscribe t cb opts).1.nextSubId)
        = some (subscribe t cb opts).2.1 := by
  have hres : resolveId opts t = t.nextSubId := by
    rcases opts with _ | o
    · rfl
    · have ho : o.id = none := by simpa using hid
      simp [resolveId, ho]
  have hfind' : t.subscriptions.find? (fun s => s.id == resolveId opts t) = some ex := by
    rw [hres]; exact hfind
  have hexid : ex.id = t.nextSubId := by
    have := List.find?_some hfind
    simpa using this
  rw [subscribe_eq_update t cb opts ex hfind', hres]
  obtain ⟨pre, post, hl, hpre, hpa⟩ := find?_decomp _ _ _ hfind
  have hpu : ((updatedSub t cb (resolveStartActive opts) ex).id == t.nextSubId) = true := by
    rw [updatedSub_id]; simpa using hpa
  have hsubs : setFirst (fun s => s.id == t.nextSubId)
      (fun _ => updatedSub t cb (resolveStartActive opts) ex) t.subscriptions
      = pre ++ updatedSub t cb (resolveStartActive opts) ex :: post := by
    rw [hl]
    exact setFirst_middle _ _ pre ex post hpre hpa
  rw [subscribeUpdate_fst, subscribeUpdate_snd_fst]
  refine ⟨rfl, rfl, ?_, ?_, ?_⟩
  · show (setFirst (fun s => s.id == t.nextSubId)
        (fun _ => updatedSub t cb (resolveStartActive opts) ex) t.subscriptions).length
      = t.subscriptions.length
    rw [hsubs, hl]
    simp
  · rw [updatedSub_id]
    exact hexid
  · show (setFirst (fun s => s.id == t.nextSubId)
        (fun _ => updatedSub t cb (resolveStartActive opts) ex) t.subscriptions).find?
        (fun s => s.id == t.nextSubId)
      = some (updatedSub t cb (resolveStartActive opts) ex)
    rw [hsubs]
    exact find?_middle _ pre _ post hpre hpu

/-- Claim C10 witness: a topic whose only subscription was created with the
explicit id 3 while `nextSubId` is also 3; an id-less subscribe updates it. -/
theorem subscribe_autoid_update_witness :
    (none : Option SubsciptionOptions).bind SubsciptionOptions.id = none
    ∧ (Topic.mk "a" [] [Subscription.mk 3 "a" none 5 true] (-1) 3 0).subscriptions.find?
        (fun s => s.id == (Topic.mk "a" [] [Subscription.mk 3 "a" none 5 true] (-1) 3 0).nextSubId)
      = some (Subscription.mk 3 "a" none 5 true)
    ∧ (resolveId none (Topic.mk "a" [] [Subscription.mk 3 "a" none 5 true] (-1) 3 0)
        = (Topic.mk "a" [] [Subscription.mk 3 "a" none 5 true] (-1) 3 0).nextSubId
      ∧ (subscribe (Topic.mk "a" [] [Subscription.mk 3 "a" none 5 true] (-1) 3 0) 8 none).1.nextSubId
        = (Topic.mk "a" [] [Subscription.mk 3 "a" none 5 true] (-1) 3 0).nextSubId
      ∧ (subscribe (Topic.mk "a" [] [Subscription.mk 3 "a" none 5 true] (-1) 3 0) 8 none).1.subscriptions.length
        = (Topic.mk "a" [] [Subscription.mk 3 "a" none 5 true] (-1) 3 0).subscriptions.length
      ∧ (subscribe (Topic.mk "a" [] [Subscription.mk 3 "a" none 5 true] (-1) 3 0) 8 none).2.1.id
        = (Topic.mk "a" [] [Subscription.mk 3 "a" none 5 true] (-1) 3 0).nextSubId
      ∧ (subscribe (Topic.mk "a" [] [Subscription.mk 3 "a" none 5 true] (-1) 3 0) 8 none).1.subscriptions.find?
          (fun s => s.id
            == (subscribe (Topic.mk "a" [] [Subscription.mk 3 "a" none 5 true] (-1) 3 0) 8 none).1.nextSubId)
        = some (subscribe (Topic.mk "a" [] [Subscription.mk 3 "a" none 5 true] (-1) 3 0) 8 none).2.1) :=
  ⟨by decide, by decide,
    subscribe_autoid_update (Topic.mk "a" [] [Subscription.mk 3 "a" none 5 true] (-1) 3 0) 8 none
      (Subscription.mk 3 "a" none 5 true) (by decide) (by decide)⟩

/-- Claim C1 counterexample: the claim asserts that the update-path replay also
happens when the stored cursor is 0.  It does not: with a log `[msg 0, msg 1]`,
a stored cursor `some 0` (differing from the newest id `some 1`), and
`startActive` true, the guard `maybeExisting.lastMessageId && ...` treats the
cursor `0` as falsy, so no replay events are produced even though the claim
demands a replay of the messages newer than the cursor; the cursor is still
advanced to the newest id. -/
theorem subscribe_update_cursor_zero_cex :
    (Subscription.mk 7 "t" (some 0) 5 true).lastMessageId = some 0
    ∧ (Topic.mk "t" [Message.mk 0 0 0, Message.mk 1 0 0]
        [Subscription.mk 7 "t" (some 0) 5 true] (-1) 8 2).messages.getLast?.map Message.id
      = some 1
    ∧ (subscribe (Topic.mk "t" [Message.mk 0 0 0, Message.mk 1 0 0]
        [Subscription.mk 7 "t" (some 0) 5 true] (-1) 8 2) 9
        (some ⟨some 7, some BacklogStrategy.FULL, none⟩)).2.2 = []
    ∧ replaySpec BacklogStrategy.FULL
        ((Topic.mk "t" [Message.mk 0 0 0, Message.mk 1 0 0]
          [Subscription.mk 7 "t" (some 0) 5 true] (-1) 8 2).messages.filter
            (fun m => 0 < m.id)) 7 9 ≠ []
    ∧ (subscribe (Topic.mk "t" [Message.mk 0 0 0, Message.mk 1 0 0]
        [Subscription.mk 7 "t" (some 0) 5 true] (-1) 8 2) 9
        (some ⟨some 7, some BacklogStrategy.FULL, none⟩)).2.1.lastMessageId = some 1 := by
  decide

/-- Claim C1 (amended): on the update path, when the stored cursor is a
**nonzero** id still present in the (strictly id-sorted) log and differs from
the newest-message id, and the log is non-empty, the backlog is replayed per
the chosen strategy over exactly the messages with ids strictly greater than
the cursor, and the cursor is then set to the newest-message id.  When the
stored cursor is `null` or `0` the code performs no replay (see the
counterexample), though the cursor is still advanced. -/
theorem subscribe_update_replay (t : Topic) (cb subId : Nat) (strat : BacklogStrategy)
    (ex : Subscription) (c : Nat)
    (hfind : t.subscriptions.find? (fun s => s.id == subId) = some ex)
    (hc : ex.lastMessageId = some c)
    (hc0 : c ≠ 0)
    (hmem : c ∈ t.messages.map Message.id)
    (hsorted : t.messages.Pairwise (fun a b => a.id < b.id))
    (hne : some c ≠ t.messages.getLast?.map Message.id) :
    (subscribe t cb (some ⟨some subId, some strat, none⟩)).2.2
      = replaySpec strat (t.messages.filter (fun m => c < m.id)) subId cb
    ∧ (subscribe t cb (some ⟨some subId, some strat, none⟩)).2.1.lastMessageId
      = t.messages.getLast?.map Message.id := by
  have hnonempty : t.messages ≠ [] := by
    intro h
    rw [h] at hmem
    simp at hmem
  have hlastsome : t.messages.getLast?.isSome = true := List.getLast?_isSome.mpr hnonempty
  obtain ⟨lm, hlm⟩ := Option.isSome_iff_exists.mp hlastsome
  have hcne : c ≠ lm.id := by
    intro h
    apply hne
    rw [hlm, h]
    rfl
  have hclt : c < lm.id := by
    apply lt_getLast_of_sorted (t.messages.map Message.id) lm.id c
    · exact List.pairwise_map.mpr hsorted
    · rw [List.getLast?_map, hlm]
      rfl
    · exact hmem
    · exact hcne
  have hguard : (jsTruthyOptNat ex.lastMessageId
      && (ex.lastMessageId != t.messages.getLast?.map Message.id)
      && t.messages.getLast?.isSome
      && resolveStartActive (some ⟨some subId, some strat, none⟩)) = true := by
    rw [hc, hlastsome, resolveStartActive_true]
    have h1 : jsTruthyOptNat (some c) = true := by
      simp [jsTruthyOptNat, hc0]
    have h2 : ((some c : Option Nat) != t.messages.getLast?.map Message.id) = true :=
      bne_iff_ne.mpr hne
    rw [h1, h2]
    rfl
  rw [subscribe_eq_update t cb (some ⟨some subId, some strat, none⟩) ex hfind]
  refine ⟨?_, rfl⟩
  show (if (jsTruthyOptNat ex.lastMessageId
      && (ex.lastMessageId != t.messages.getLast?.map Message.id)
      && t.messages.getLast?.isSome
      && resolveStartActive (some ⟨some subId, some strat, none⟩)) = true then
      match resolveBacklogStrategy (some ⟨some subId, some strat, none⟩) with
      | BacklogStrategy.FULL =>
        (filterIdxFrom
          (findIndexJs (fun m => some m.id == ex.lastMessageId) t.messages) 0
          t.messages).map (fun m => Event.mk subId cb m)
      | BacklogStrategy.LATEST =>
        match t.messages.getLast? with
        | some lm => [Event.mk subId cb lm]
        | none => []
      | BacklogStrategy.IGNORE => []
    else [])
    = replaySpec strat (t.messages.filter (fun m => c < m.id)) subId cb
  rw [if_pos hguard]
  have hstrat : resolveBacklogStrategy (some ⟨some subId, some strat, none⟩) = strat := rfl
  rw [hstrat]
  cases strat with
  | IGNORE => rfl
  | FULL =>
    rw [hc, backlog_window_of_mem _ _ hsorted hmem]
    rfl
  | LATEST =>
    have hfilterlast : (t.messages.filter (fun m => decide (c < m.id))).getLast? = some lm :=
      getLast?_filter _ _ _ hlm (by simpa using hclt)
    show (match t.messages.getLast? with
      | some lm => [Event.mk subId cb lm]
      | none => []) = _
    rw [hlm]
    simp only [replaySpec]
    rw [hfilterlast]

/-- Claim C1 witness: resume with cursor 1 on a sorted log `[0,1,2]`, strategy
`full`; exactly message 2 is replayed and the cursor advances to 2. -/
theorem subscribe_update_replay_witness :
    (Topic.mk "t" [Message.mk 0 0 0, Message.mk 1 0 0, Message.mk 2 0 0]
        [Subscription.mk 4 "t" (some 1) 5 true] (-1) 5 3).subscriptions.find?
        (fun s => s.id == 4) = some (Subscription.mk 4 "t" (some 1) 5 true)
    ∧ (Subscription.mk 4 "t" (some 1) 5 true).lastMessageId = some 1
    ∧ (1 : Nat) ≠ 0
    ∧ (1 : Nat) ∈ (Topic.mk "t" [Message.mk 0 0 0, Message.mk 1 0 0, Message.mk 2 0 0]
        [Subscription.mk 4 "t" (some 1) 5 true] (-1) 5 3).messages.map Message.id
    ∧ (Topic.mk "t" [Message.mk 0 0 0, Message.mk 1 0 0, Message.mk 2 0 0]
        [Subscription.mk 4 "t" (some 1) 5 true] (-1) 5 3).messages.Pairwise
        (fun a b => a.id < b.id)
    ∧ some 1 ≠ (Topic.mk "t" [Message.mk 0 0 0, Message.mk 1 0 0, Message.mk 2 0 0]
        [Subscription.mk 4 "t" (some 1) 5 true] (-1) 5 3).messages.getLast?.map Message.id
    ∧ ((subscribe (Topic.mk "t" [Message.mk 0 0 0, Message.mk 1 0 0, Message.mk 2 0 0]
          [Subscription.mk 4 "t" (some 1) 5 true] (-1) 5 3) 9
          (some ⟨some 4, some BacklogStrategy.FULL, none⟩)).2.2
        = replaySpec BacklogStrategy.FULL
            ((Topic.mk "t" [Message.mk 0 0 0, Message.mk 1 0 0, Message.mk 2 0 0]
              [Subscription.mk 4 "t" (some 1) 5 true] (-1) 5 3).messages.filter
              (fun m => 1 < m.id)) 4 9
      ∧ (subscribe (Topic.mk "t" [Message.mk 0 0 0, Message.mk 1 0 0, Message.mk 2 0 0]
          [Subscription.mk 4 "t" (some 1) 5 true] (-1) 5 3) 9
          (some ⟨some 4, some BacklogStrategy.FULL, none⟩)).2.1.lastMessageId
        = (Topic.mk "t" [Message.mk 0 0 0, Message.mk 1 0 0, Message.mk 2 0 0]
            [Subscription.mk 4 "t" (some 1) 5 true] (-1) 5 3).messages.getLast?.map Message.id) :=
  ⟨by decide, by decide, by decide, by decide, by decide, by decide,
    subscribe_update_replay
      (Topic.mk "t" [Message.mk 0 0 0, Message.mk 1 0 0, Message.mk 2 0 0]
        [Subscription.mk 4 "t" (some 1) 5 true] (-1) 5 3) 9 4 BacklogStrategy.FULL
      (Subscription.mk 4 "t" (some 1) 5 true) 1
      (by decide) (by decide) (by decide) (by decide) (by decide) (by decide)⟩

/-- Claim C9 counterexample: the claim asserts that whenever the stored cursor
refers to an evicted id, the whole retained log is replayed.  With a retained
log `[msg 2]` and a stored cursor `some 0` (id 0 evicted), the guard treats
the cursor `0` as falsy and no replay happens at all, instead of the claimed
full-log replay. -/
theorem subscribe_update_evicted_cursor_zero_cex :
    (Subscription.mk 4 "t" (some 0) 5 true).lastMessageId = some 0
    ∧ (0 : Nat) ∉ (Topic.mk "t" [Message.mk 2 0 0]
        [Subscription.mk 4 "t" (some 0) 5 true] (-1) 5 3).messages.map Message.id
    ∧ (Topic.mk "t" [Message.mk 2 0 0]
        [Subscription.mk 4 "t" (some 0) 5 true] (-1) 5 3).messages ≠ []
    ∧ (subscribe (Topic.mk "t" [Message.mk 2 0 0]
        [Subscription.mk 4 "t" (some 0) 5 true] (-1) 5 3) 9
        (some ⟨some 4, some BacklogStrategy.FULL, none⟩)).2.2 = []
    ∧ (Topic.mk "t" [Message.mk 2 0 0]
        [Subscription.mk 4 "t" (some 0) 5 true] (-1) 5 3).messages.map
        (fun m => Event.mk 4 9 m) ≠ [] := by
  decide

/-- Claim C9 (amended): on the update path with strategy `full`, when the
stored cursor is a **nonzero** id that is no longer present in the retained
log, the index search yields `-1` and the entire retained log is replayed,
oldest first, after which the cursor is set to the newest id.  When the
evicted cursor is `0` (or `null`) no replay happens at all (see the
counterexample). -/
theorem subscribe_update_evicted_full (t : Topic) (cb subId : Nat)
    (ex : Subscription) (c : Nat)
    (hfind : t.subscriptions.find? (fun s => s.id == subId) = some ex)
    (hc : ex.lastMessageId = some c)
    (hc0 : c ≠ 0)
    (hnotmem : c ∉ t.messages.map Message.id)
    (hnonempty : t.messages ≠ []) :
    (subscribe t cb (some ⟨some subId, some BacklogStrategy.FULL, none⟩)).2.2
      = t.messages.map (fun m => Event.mk subId cb m)
    ∧ (subscribe t cb (some ⟨some subId, some BacklogStrategy.FULL, none⟩)).2.1.lastMessageId
      = t.messages.getLast?.map Message.id := by
  have hlastsome : t.messages.getLast?.isSome = true := List.getLast?_isSome.mpr hnonempty
  obtain ⟨lm, hlm⟩ := Option.isSome_iff_exists.mp hlastsome
  have hne : some c ≠ t.messages.getLast?.map Message.id := by
    rw [hlm]
    intro h
    apply hnotmem
    have hcid : c = lm.id := by simpa using h
    rw [hcid]
    exact List.mem_map.mpr ⟨lm, getLast?_mem' _ _ hlm, rfl⟩
  have hguard : (jsTruthyOptNat ex.lastMessageId
      && (ex.lastMessageId != t.messages.getLast?.map Message.id)
      && t.messages.getLast?.isSome
      && resolveStartActive (some ⟨some subId, some BacklogStrategy.FULL, none⟩)) = true := by
    rw [hc, hlastsome, resolveStartActive_true]
    have h1 : jsTruthyOptNat (some c) = true := by
      simp [jsTruthyOptNat, hc0]
    have h2 : ((some c : Option Nat) != t.messages.getLast?.map Message.id) = true :=
      bne_iff_ne.mpr hne
    rw [h1, h2]
    rfl
  rw [subscribe_eq_update t cb (some ⟨some subId, some BacklogStrategy.FULL, none⟩) ex hfind]
  refine ⟨?_, rfl⟩
  show (if (jsTruthyOptNat ex.lastMessageId
      && (ex.lastMessageId != t.messages.getLast?.map Message.id)
      && t.messages.getLast?.isSome
      && resolveStartActive (some ⟨some subId, some BacklogStrategy.FULL, none⟩)) = true then
      match resolveBacklogStrategy (some ⟨some subId, some BacklogStrategy.FULL, none⟩) with
      | BacklogStrategy.FULL =>
        (filterIdxFrom
          (findIndexJs (fun m => some m.id == ex.lastMessageId) t.messages) 0
          t.messages).map (fun m => Event.mk subId cb m)
      | BacklogStrategy.LATEST =>
        match t.messages.getLast? with
        | some lm => [Event.mk subId cb lm]
        | none => []
      | BacklogStrategy.IGNORE => []
    else [])
    = t.messages.map (fun m => Event.mk subId cb m)
  rw [if_pos hguard]
  rw [hc]
  show (filterIdxFrom
      (findIndexJs (fun m => some m.id == some c) t.messages) 0 t.messages).map
      (fun m => Event.mk subId cb m)
    = t.messages.map (fun m => Event.mk subId cb m)
  rw [backlog_window_of_not_mem _ _ hnotmem]

/-- Claim C9 witness: retained log `[msg 2]`, evicted nonzero cursor 1; the
whole retained log is replayed. -/
theorem subscribe_update_evicted_full_witness :
    (Topic.mk "t" [Message.mk 2 0 0]
        [Subscription.mk 4 "t" (some 1) 5 true] (-1) 5 3).subscriptions.find?
        (fun s => s.id == 4) = some (Subscription.mk 4 "t" (some 1) 5 true)
    ∧ (Subscription.mk 4 "t" (some 1) 5 true).lastMessageId = some 1
    ∧ (1 : Nat) ≠ 0
    ∧ (1 : Nat) ∉ (Topic.mk "t" [Message.mk 2 0 0]
        [Subscription.mk 4 "t" (some 1) 5 true] (-1) 5 3).messages.map Message.id
    ∧ (Topic.mk "t" [Message.mk 2 0 0]
        [Subscription.mk 4 "t" (some 1) 5 true] (-1) 5 3).messages ≠ []
    ∧ ((subscribe (Topic.mk "t" [Message.mk 2 0 0]
          [Subscription.mk 4 "t" (some 1) 5 true] (-1) 5 3) 9
          (some ⟨some 4, some BacklogStrategy.FULL, none⟩)).2.2
        = (Topic.mk "t" [Message.mk 2 0 0]
            [Subscription.mk 4 "t" (some 1) 5 true] (-1) 5 3).messages.map
            (fun m => Event.mk 4 9 m)
      ∧ (subscribe (Topic.mk "t" [Message.mk 2 0 0]
          [Subscription.mk 4 "t" (some 1) 5 true] (-1) 5 3) 9
          (some ⟨some 4, some BacklogStrategy.FULL, none⟩)).2.1.lastMessageId
        = (Topic.mk "t" [Message.mk 2 0 0]
            [Subscription.mk 4 "t" (some 1) 5 true] (-1) 5 3).messages.getLast?.map
            Message.id) :=
  ⟨by decide, by decide, by decide, by decide, by decide,
    subscribe_update_evicted_full
      (Topic.mk "t" [Message.mk 2 0 0] [Subscription.mk 4 "t" (some 1) 5 true] (-1) 5 3) 9 4
      (Subscription.mk 4 "t" (some 1) 5 true) 1
      (by decide) (by decide) (by decide) (by decide) (by decide)⟩
